import Mathlib

/-!
Verification of the captest screen-capture CLI (src/main.rs and
src/platforms/{mac,windows,linux}/mod.rs).

The Rust code is shallowly embedded: `Vec<u8>` byte buffers are `List Nat`
(each element a byte value), Rust strings are `String` where only equality
and emptiness matter and `List Nat` (their UTF-8 bytes) where byte slicing
matters, and code that can panic or call process exit is modelled with
`Option` or an explicit outcome type.
-/

namespace Captest

/-- A scap BGRA video frame as consumed by `bgra_to_rgb8`
(src/main.rs): width, height and the raw BGRA byte buffer. -/
structure BGRAFrame where
  width : Nat
  height : Nat
  data : List Nat
deriving Repr, DecidableEq

/-- The chunk loop of `bgra_to_rgb8` (src/main.rs lines 220-231): for each
complete 4-byte chunk `(B,G,R,A)` of the buffer push `R`, `G`, `B`;
`chunks_exact(4)` silently ignores a trailing remainder of fewer than
4 bytes, exactly as the second match arm here does. -/
def bgraChunksToRgb : List Nat → List Nat
  | b :: g :: r :: _ :: rest => r :: g :: b :: bgraChunksToRgb rest
  | _ => []

/-- `bgra_to_rgb8` (src/main.rs lines 220-231): returns
`(width, height, rgb_data)` for a BGRA frame.  No length validation is
performed by the source. -/
def bgra_to_rgb8 (f : BGRAFrame) : Nat × Nat × List Nat :=
  (f.width, f.height, bgraChunksToRgb f.data)

/-- The byte stream of a list of BGRA pixel groups `(B,G,R,A)`, used to state
what "each consecutive 4-byte group" means for an input buffer. -/
def flattenBGRA : List (Nat × Nat × Nat × Nat) → List Nat
  | [] => []
  | (b, g, r, a) :: rest => b :: g :: r :: a :: flattenBGRA rest

/-- The expected RGB byte stream for a list of BGRA pixel groups: each group
`(B,G,R,A)` contributes `R`, `G`, `B` in order. -/
def expectedRGB : List (Nat × Nat × Nat × Nat) → List Nat
  | [] => []
  | (b, g, r, _) :: rest => r :: g :: b :: expectedRGB rest

/-- The result of `rgb8_to_jpeg_bytes` (src/main.rs lines 233-259): the
encoded bytes themselves come from the external image codec and are opaque,
so the model records the container format and quality actually requested
(`JpegEncoder::new_with_quality(&mut jpeg_bytes, 75)`). -/
structure EncodedImage where
  container : String
  quality : Nat
deriving Repr, DecidableEq

/-- `rgb8_to_jpeg_bytes` (src/main.rs lines 233-259): builds an
`ImageBuffer` from the RGB bytes — `from_raw` fails when the buffer is
smaller than width*height*3 — and encodes it as JPEG at quality 75. -/
def rgb8_to_jpeg_bytes (width height : Nat) (rgb_data : List Nat) :
    Except String EncodedImage :=
  if width * height * 3 ≤ rgb_data.length then
    Except.ok { container := "jpeg", quality := 75 }
  else
    Except.error "Failed to create image buffer"

/-- The capture engine session state: whether a capture session started by
`start_capture` is currently active. -/
structure EngineState where
  running : Bool
deriving Repr, DecidableEq

/-- The frame value produced by `capturer.get_next_frame()`: one of the
seven scap video-frame variants, or an audio frame.  Only the BGRA variant
carries data the program uses; for the other video variants the source only
prints the metadata. -/
inductive FrameResult where
  | videoYUV (w h : Nat)
  | videoBGR0 (w h : Nat)
  | videoRGB (w h : Nat)
  | videoRGBx (w h : Nat)
  | videoXBGR (w h : Nat)
  | videoBGRx (w h : Nat)
  | videoBGRA (f : BGRAFrame)
  | audio
deriving Repr, DecidableEq

/-- The capture session body shared by `capture_screen` (src/main.rs lines
549-652) and `capture_window` (lines 369-472), starting at
`capturer.start_capture()`: the engine is started (running set), one frame
response is awaited (there is no timeout mechanism in the source; the
response is whatever `get_next_frame` eventually returns), the frame is
handled by kind, and the function returns.  `stop_capture` is never called
on any path.  Returns the final engine state, the Result value of the
function, and the tail of the printed transcript (the messages the claims
refer to). -/
def runCaptureSession (st : EngineState) (fr : Except String FrameResult) :
    EngineState × Except String Unit × List String :=
  let started : EngineState := { st with running := true }
  match fr with
  | Except.ok (FrameResult.videoBGRA f) =>
      match rgb8_to_jpeg_bytes (bgra_to_rgb8 f).1 (bgra_to_rgb8 f).2.1
          (bgra_to_rgb8 f).2.2 with
      | Except.ok _ => (started, Except.ok (), ["Frame captured successfully!"])
      | Except.error e =>
          (started, Except.error e, ["Failed to convert frame to JPEG: " ++ e])
  | Except.ok FrameResult.audio =>
      (started, Except.ok (),
        ["Received audio frame (unexpected for screen capture)",
         "Frame captured successfully!"])
  | Except.ok _ =>
      (started, Except.ok (), ["Frame captured successfully!"])
  | Except.error e =>
      (started, Except.error ("Frame capture failed: " ++ e),
        ["Frame capture failed with error: " ++ e])

/-- A native window record as read by the macOS backend
(src/platforms/mac/mod.rs): the fields its relevance filter inspects, with
the defaults the source substitutes for missing values (empty window name,
owner name "Unknown", zero bounds). -/
structure NativeWindowRecord where
  windowName : String
  ownerName : String
  boundsX : Int
  boundsY : Int
  boundsW : Int
  boundsH : Int
deriving Repr, DecidableEq

/-- The `has_meaningful_info` filter of the macOS backend
(src/platforms/mac/mod.rs lines 50-55): keep a record when the window name
is non-empty, or the owner name is non-empty, differs from "Unknown" and a
bound exceeds 50. -/
def macHasMeaningfulInfo (r : NativeWindowRecord) : Bool :=
  (!r.windowName.isEmpty) ||
    ((!r.ownerName.isEmpty) && (r.ownerName != "Unknown") &&
      (decide (50 < r.boundsW) || decide (50 < r.boundsH)))

/-- The keep-decision of the Windows backend callback `enum_window_proc`
(src/platforms/windows/mod.rs lines 63-79): a window is printed iff its
title is non-empty, `GetWindowRect` succeeded, and neither width nor height
is below 10. -/
def winKeepsWindow (title : String) (rectOk : Bool) (width height : Int) : Bool :=
  (!title.isEmpty) && rectOk &&
    !(decide (width < 10) || decide (height < 10))

/-- Modelled from the spec wording of the relevance filter (for comparison
with the per-backend filters): keep the record if it has a non-empty title,
OR its owner name is non-empty and not the "Unknown" placeholder and its
bounds width or height exceeds 50 logical units. -/
def specRelevanceFilter (r : NativeWindowRecord) : Bool :=
  (!r.windowName.isEmpty) ||
    ((!r.ownerName.isEmpty) && (r.ownerName != "Unknown") &&
      (decide (r.boundsW > 50) || decide (r.boundsH > 50)))

/-- Outcome of the index-resolution step of `capture_window` and
`capture_screen`: either the requested element was selected, or the process
printed a message and exited with the given status code. -/
inductive ResolveOutcome (α : Type) where
  | selected (index : Nat) (target : α)
  | exited (message : String) (exitCode : Nat)
deriving Repr, DecidableEq

/-- The eprintln message of the out-of-range branch of `capture_window`
(src/main.rs lines 325-329); `rangeHi` is `len.saturating_sub(1)`.
`capture_screen` (lines 501-505) prints the same message with
"Screen"/"screens" in place of "Window"/"windows". -/
def windowErrorMessage (requested rangeHi : Nat) : String :=
  "Error: Window " ++ toString requested ++
    " not found. Available windows: 0-" ++ toString rangeHi

/-- The index-resolution logic shared by `capture_window` (src/main.rs lines
325-331) and `capture_screen` (lines 501-507): if the requested index is
out of range, print the error naming the range 0..len-1 and exit with
status 1; otherwise select exactly the requested element. -/
def resolveByIndex {α : Type} (xs : List α) (i : Nat) : ResolveOutcome α :=
  if h : i < xs.length then ResolveOutcome.selected i (xs.get ⟨i, h⟩)
  else ResolveOutcome.exited (windowErrorMessage i (xs.length - 1)) 1

/-- A scap capture target: a display or a window, with platform id and
title. -/
inductive Target where
  | display (id : Nat) (title : String)
  | window (id : Nat) (title : String)
deriving Repr, DecidableEq

/-- Whether a target is a display. -/
def isDisplayTarget : Target → Bool
  | Target.display _ _ => true
  | Target.window _ _ => false

/-- Whether a target is a window. -/
def isWindowTarget : Target → Bool
  | Target.display _ _ => false
  | Target.window _ _ => true

/-- The loop of `list_screens` (src/main.rs lines 274-291): walk the engine
target list in order with a dedicated `screen_index` counter, emitting
`(index, id, title)` for each display and skipping windows. -/
def screenRows : List Target → Nat → List (Nat × Nat × String)
  | [], _ => []
  | Target.display id title :: rest, i => (i, id, title) :: screenRows rest (i + 1)
  | Target.window _ _ :: rest, i => screenRows rest i

/-- `list_screens` starts its counter at 0. -/
def list_screens (targets : List Target) : List (Nat × Nat × String) :=
  screenRows targets 0

/-- The window-indexing loop shared by the linux `list_windows`
(src/platforms/linux/mod.rs lines 11-17) and the `scap_indices` map
construction of the mac and windows backends (mac/mod.rs lines 12-22,
windows/mod.rs lines 18-28): walk the engine target list in order with a
dedicated `window_index` counter, emitting `(index, id, title)` for each
window and skipping displays. -/
def windowRows : List Target → Nat → List (Nat × Nat × String)
  | [], _ => []
  | Target.window id title :: rest, i => (i, id, title) :: windowRows rest (i + 1)
  | Target.display _ _ :: rest, i => windowRows rest i

/-- `list_windows` starts its counter at 0. -/
def list_windows (targets : List Target) : List (Nat × Nat × String) :=
  windowRows targets 0

/-- Rust `str::ends_with`, modelled on the character list of the string:
the candidate suffix must equal the tail of the string of its length. -/
def rustEndsWith (s p : String) : Bool :=
  decide (s.data.drop (s.data.length - p.data.length) = p.data)

/-- The output-filename logic of `capture_screen` (src/main.rs lines
540-547): when a name is supplied, append ".png" unless it already ends
with ".png"; when no name is supplied, no name is generated (and the BGRA
success path then skips saving, lines 612-619). -/
def screenOutputFilename (output : Option String) : Option String :=
  output.map fun name => if rustEndsWith name ".png" then name else name ++ ".png"

/-- The output-filename logic of `capture_window` (src/main.rs lines
366-367): the supplied name is passed through unchanged, and no name is
generated when none is supplied (saving is then skipped, lines 432-439). -/
def windowOutputFilename (output : Option String) : Option String := output

/-- Whether the BGRA success path writes a file: only when a filename is
present (src/main.rs lines 432-439 and 612-619). -/
def savesFile (filename : Option String) : Bool := filename.isSome

/-- Rust `str::is_char_boundary` on a UTF-8 byte buffer: index 0 is always a
boundary, an in-range index is a boundary iff the byte there is not a UTF-8
continuation byte (below 0x80 or at least 0xC0), and an out-of-range index
is a boundary only when it equals the length. -/
def isCharBoundary (s : List Nat) (i : Nat) : Bool :=
  if i = 0 then true
  else if h : i < s.length then
    decide (s.get ⟨i, h⟩ < 128 ∨ 192 ≤ s.get ⟨i, h⟩)
  else decide (i = s.length)

/-- Rust byte-range slicing `&s[..i]`: the first `i` bytes when `i` is a
char boundary, otherwise a panic (modelled as `none`). -/
def byteSliceTo (s : List Nat) (i : Nat) : Option (List Nat) :=
  if isCharBoundary s i then some (s.take i) else none

/-- The UTF-8 bytes of the ellipsis character the truncation appends. -/
def ellipsisBytes : List Nat := [226, 128, 166]

/-- `truncate_string` (src/platforms/mac/mod.rs lines 127-133 and
src/platforms/windows/mod.rs lines 115-121): return the string unchanged
when its byte length is at most `max_len`, otherwise byte-slice the first
`max_len.saturating_sub(1)` bytes (a panic when that index is not a char
boundary) and append an ellipsis. -/
def truncate_string (s : List Nat) (max_len : Nat) : Option (List Nat) :=
  if s.length ≤ max_len then some s
  else (byteSliceTo s (max_len - 1)).map (· ++ ellipsisBytes)

theorem bgraChunksToRgb_short (rem : List Nat) (h : rem.length < 4) :
    bgraChunksToRgb rem = [] := by
  match rem with
  | [] => rfl
  | [_] => rfl
  | [_, _] => rfl
  | [_, _, _] => rfl
  | _ :: _ :: _ :: _ :: _ => simp at h; omega

theorem bgraChunksToRgb_length :
    ∀ data : List Nat, (bgraChunksToRgb data).length = 3 * (data.length / 4)
  | [] => rfl
  | [_] => by simp [bgraChunksToRgb_short]
  | [_, _] => by simp [bgraChunksToRgb_short]
  | [_, _, _] => by simp [bgraChunksToRgb_short]
  | _ :: _ :: _ :: _ :: rest => by
      have ih := bgraChunksToRgb_length rest
      simp only [bgraChunksToRgb, List.length_cons]
      omega

theorem bgraChunksToRgb_append (gs : List (Nat × Nat × Nat × Nat))
    (rem : List Nat) :
    bgraChunksToRgb (flattenBGRA gs ++ rem) = expectedRGB gs ++ bgraChunksToRgb rem := by
  induction gs with
  | nil => rfl
  | cons g rest ih =>
    obtain ⟨b, g2, r, a⟩ := g
    simp [flattenBGRA, expectedRGB, bgraChunksToRgb, ih]

theorem flattenBGRA_length (gs : List (Nat × Nat × Nat × Nat)) :
    (flattenBGRA gs).length = 4 * gs.length := by
  induction gs with
  | nil => rfl
  | cons g rest ih =>
    obtain ⟨b, g2, r, a⟩ := g
    simp [flattenBGRA, ih]; omega

theorem expectedRGB_length (gs : List (Nat × Nat × Nat × Nat)) :
    (expectedRGB gs).length = 3 * gs.length := by
  induction gs with
  | nil => rfl
  | cons g rest ih =>
    obtain ⟨b, g2, r, a⟩ := g
    simp [expectedRGB, ih]; omega

theorem screenRows_map_fst (ts : List Target) :
    ∀ i : Nat, (screenRows ts i).map Prod.fst = List.range' i (ts.countP isDisplayTarget) := by
  induction ts with
  | nil => intro i; rfl
  | cons t rest ih =>
    intro i
    cases t with
    | display id title =>
      simp [screenRows, List.countP_cons, isDisplayTarget, List.range'_succ, ih]
    | window id title =>
      simp [screenRows, List.countP_cons, isDisplayTarget, ih]

theorem windowRows_map_fst (ts : List Target) :
    ∀ i : Nat, (windowRows ts i).map Prod.fst = List.range' i (ts.countP isWindowTarget) := by
  induction ts with
  | nil => intro i; rfl
  | cons t rest ih =>
    intro i
    cases t with
    | display id title =>
      simp [windowRows, List.countP_cons, isWindowTarget, ih]
    | window id title =>
      simp [windowRows, List.countP_cons, isWindowTarget, List.range'_succ, ih]

/-- Claim C1: for every BGRA frame whose data length equals width*height*4,
`bgra_to_rgb8` maps each consecutive 4-byte group (B,G,R,A) to the 3-byte
group (R,G,B) in order, the output length is exactly 3/4 of the input
length, and in particular a 2x1 input [B0,G0,R0,A0,B1,G1,R1,A1] yields
exactly [R0,G0,B0,R1,G1,B1]. -/
theorem c1_bgra_normalization :
    (∀ (f : BGRAFrame) (gs : List (Nat × Nat × Nat × Nat)),
        f.data = flattenBGRA gs →
        f.data.length = f.width * f.height * 4 →
        bgra_to_rgb8 f = (f.width, f.height, expectedRGB gs) ∧
        4 * ((bgra_to_rgb8 f).2.2.length) = 3 * f.data.length) ∧
    (∀ b0 g0 r0 a0 b1 g1 r1 a1 : Nat,
        bgra_to_rgb8 ⟨2, 1, [b0, g0, r0, a0, b1, g1, r1, a1]⟩
          = (2, 1, [r0, g0, b0, r1, g1, b1])) := by
  constructor
  · intro f gs hdata _hlen
    have hmain : bgraChunksToRgb f.data = expectedRGB gs := by
      rw [hdata]
      have := bgraChunksToRgb_append gs []
      simpa [bgraChunksToRgb] using this
    constructor
    · simp [bgra_to_rgb8, hmain]
    · have h1 : (bgra_to_rgb8 f).2.2 = expectedRGB gs := by
        simp [bgra_to_rgb8, hmain]
      rw [h1, expectedRGB_length, hdata, flattenBGRA_length]
      ring
  · intro b0 g0 r0 a0 b1 g1 r1 a1
    rfl

/-- Witness for C1 at a concrete 1x1 frame. -/
theorem c1_witness :
    bgra_to_rgb8 ⟨1, 1, [10, 20, 30, 40]⟩ = (1, 1, [30, 20, 10]) :=
  (c1_bgra_normalization.1 ⟨1, 1, [10, 20, 30, 40]⟩ [(10, 20, 30, 40)] rfl rfl).1

/-- Claim C2 counterexample: on a 5-byte buffer (not a multiple of 4)
`bgra_to_rgb8` does not fail with any error: it returns a normal, truncated
partial output, silently dropping the trailing byte. -/
theorem c2_counterexample :
    bgra_to_rgb8 ⟨1, 1, [10, 20, 30, 40, 50]⟩ = (1, 1, [30, 20, 10]) ∧
    ([10, 20, 30, 40, 50] : List Nat).length % 4 = 1 ∧
    (bgra_to_rgb8 ⟨1, 1, [10, 20, 30, 40, 50]⟩).2.2.length = 3 :=
  ⟨rfl, rfl, rfl⟩

/-- Claim C2 amended: `bgra_to_rgb8` performs no validation and has no error
path.  For any buffer it converts the first len/4 complete 4-byte groups
(output length 3*(len/4)) and silently drops a trailing remainder of fewer
than 4 bytes; the width*height*4 relation is never checked. -/
theorem c2_amended :
    (∀ data : List Nat, (bgraChunksToRgb data).length = 3 * (data.length / 4)) ∧
    (∀ (gs : List (Nat × Nat × Nat × Nat)) (rem : List Nat), rem.length < 4 →
        bgraChunksToRgb (flattenBGRA gs ++ rem) = expectedRGB gs) := by
  refine ⟨bgraChunksToRgb_length, ?_⟩
  intro gs rem h
  rw [bgraChunksToRgb_append, bgraChunksToRgb_short rem h, List.append_nil]

/-- Witness for the amended C2: a one-pixel group with one stray trailing
byte converts to just that pixel's RGB bytes. -/
theorem c2_witness :
    bgraChunksToRgb (flattenBGRA [(10, 20, 30, 40)] ++ [50]) = expectedRGB [(10, 20, 30, 40)] :=
  c2_amended.2 [(10, 20, 30, 40)] [50] (by decide)

/-- Claim C3 counterexample: after the capture operation returns (here: the
engine delivered an audio frame and the function returned Ok), the engine
session started by `start_capture` is still running — the post-call probe
returns true, not false, because `stop_capture` is never called. -/
theorem c3_counterexample :
    (runCaptureSession ⟨false⟩ (Except.ok FrameResult.audio)).1.running = true :=
  rfl

/-- Claim C3 amended: `capture_screen` and `capture_window` never call
`stop_capture`: on every exit path of the session (BGRA frame with
successful or failed JPEG conversion, any other video variant, audio frame,
frame error) the engine remains running when the operation returns; the
source also has no timeout mechanism around `get_next_frame`. -/
theorem c3_amended (st : EngineState) (fr : Except String FrameResult) :
    (runCaptureSession st fr).1.running = true := by
  cases fr with
  | error e => rfl
  | ok r =>
    cases r <;> try rfl
    simp only [runCaptureSession]
    split <;> rfl

/-- Claim C4 counterexample: the relevance filter is not the same on each
platform backend: an untitled 100x100 window owned by "Firefox" is kept by
the macOS filter but skipped by the Windows backend (which requires a
non-empty title). -/
theorem c4_counterexample :
    macHasMeaningfulInfo ⟨"", "Firefox", 0, 0, 100, 100⟩ = true ∧
    winKeepsWindow "" true 100 100 = false := by
  exact ⟨by decide, by decide⟩

/-- Claim C4 amended: the macOS backend implements exactly the stated
relevance filter, but the Windows backend instead keeps a record iff its
title is non-empty, its rect is available, and width and height are at
least 10 — so the untitled 100x100 "Firefox" window that the stated filter
keeps is skipped on Windows (and the linux backend lists scap windows
directly, with no native records to filter). -/
theorem c4_amended :
    (∀ r : NativeWindowRecord, macHasMeaningfulInfo r = specRelevanceFilter r) ∧
    (winKeepsWindow "" true 100 100 = false ∧
      specRelevanceFilter ⟨"", "Firefox", 0, 0, 100, 100⟩ = true) := by
  refine ⟨fun r => rfl, by decide, by decide⟩

/-- Claim C5: an out-of-range index prints an error naming the requested
index and the valid range 0..len-1 and exits with status 1; an in-range
index selects exactly the requested element (never clamped); with 3 targets
the suggested range reads "0-2". -/
theorem c5_index_out_of_range :
    (∀ (α : Type) (xs : List α) (i : Nat), xs.length ≤ i →
        resolveByIndex xs i =
          ResolveOutcome.exited (windowErrorMessage i (xs.length - 1)) 1) ∧
    (∀ (α : Type) (xs : List α) (i : Nat) (h : i < xs.length),
        resolveByIndex xs i = ResolveOutcome.selected i (xs.get ⟨i, h⟩)) ∧
    (∀ xs : List Nat, xs.length = 3 → ∀ i : Nat, 3 ≤ i →
        resolveByIndex xs i = ResolveOutcome.exited (windowErrorMessage i 2) 1) ∧
    (windowErrorMessage 5 2 = "Error: Window 5 not found. Available windows: 0-2") := by
  refine ⟨?_, ?_, ?_, ?_⟩
  · intro α xs i h
    rw [resolveByIndex, dif_neg (by omega)]
  · intro α xs i h
    rw [resolveByIndex, dif_pos h]
  · intro xs hlen i hi
    rw [resolveByIndex, dif_neg (by omega), hlen]
  · rfl

/-- Witness for C5: requesting window 5 when 3 windows exist exits with
status 1 and the message naming the range 0-2. -/
theorem c5_witness :
    resolveByIndex ([10, 20, 30] : List Nat) 5 =
      ResolveOutcome.exited "Error: Window 5 not found. Available windows: 0-2" 1 := by
  have h1 := c5_index_out_of_range.2.2.1 ([10, 20, 30] : List Nat) rfl 5 (by decide)
  have h2 := c5_index_out_of_range.2.2.2
  rw [h1, h2]

/-- Claim C6: for every engine target list, in any interleaving of kinds,
the display indices produced by `list_screens` and the window indices
produced by `list_windows` are exactly 0..N-1 and 0..M-1 in order, where N
and M are the number of displays and windows in the list. -/
theorem c6_enum_density (ts : List Target) :
    (list_screens ts).map Prod.fst = List.range (ts.countP isDisplayTarget) ∧
    (list_windows ts).map Prod.fst = List.range (ts.countP isWindowTarget) := by
  constructor
  · rw [list_screens, screenRows_map_fst ts 0, List.range_eq_range']
  · rw [list_windows, windowRows_map_fst ts 0, List.range_eq_range']

/-- Claim C7 counterexample: when the engine returns an audio frame the
operation prints a note and then completes successfully (Ok together with
the success message), instead of failing with an UnexpectedKind error. -/
theorem c7_counterexample :
    (runCaptureSession ⟨false⟩ (Except.ok FrameResult.audio)).2.1 = Except.ok () ∧
    (runCaptureSession ⟨false⟩ (Except.ok FrameResult.audio)).2.2 =
      ["Received audio frame (unexpected for screen capture)",
       "Frame captured successfully!"] :=
  ⟨rfl, rfl⟩

/-- Claim C7 amended: for every audio frame returned by the engine, the
command prints "Received audio frame (unexpected for screen capture)" and
then returns Ok, completing successfully rather than aborting. -/
theorem c7_amended (st : EngineState) :
    (runCaptureSession st (Except.ok FrameResult.audio)).2.1 = Except.ok () :=
  rfl

/-- Claim C8 (code bug): when no output filename is supplied, no default
timestamped filename is generated and no file is written by either capture
command — even though the CLI help text in the same source file documents a
default of screenshot_<timestamp>.jpg. -/
theorem c8_no_default_filename :
    screenOutputFilename none = none ∧
    windowOutputFilename none = none ∧
    savesFile (screenOutputFilename none) = false ∧
    savesFile (windowOutputFilename none) = false :=
  ⟨rfl, rfl, rfl, rfl⟩

/-- Claim C9 (code bug): for a supplied name lacking an extension,
`capture_screen` appends ".png" although the encoder produces a JPEG
container at quality 75 (so the appended extension does not match the
container), and `capture_window` appends no extension at all. -/
theorem c9_extension_mismatch :
    screenOutputFilename (some "shot") = some "shot.png" ∧
    windowOutputFilename (some "shot") = some "shot" ∧
    rgb8_to_jpeg_bytes 1 1 [0, 0, 0] = Except.ok ⟨"jpeg", 75⟩ ∧
    rustEndsWith "shot.png" ".png" = true ∧
    rustEndsWith "shot.png" ".jpg" = false ∧
    rustEndsWith "shot.png" ".jpeg" = false := by
  refine ⟨by decide, rfl, rfl, by decide, by decide, by decide⟩

/-- Claim C10 counterexample: `truncate_string` is not total: on the 6-byte
UTF-8 buffer of three 2-byte characters with max_len 4, byte index 3 falls
inside the second character, so the byte slice panics. -/
theorem c10_counterexample :
    truncate_string [195, 169, 195, 169, 195, 169] 4 = none := by
  decide

/-- Claim C10 amended: `truncate_string` returns the string unchanged when
its byte length is at most max_len, and otherwise returns the first
max_len-1 bytes followed by an ellipsis — but only when byte index
max_len-1 falls on a char boundary; when it falls inside a multi-byte UTF-8
character the slice panics, so the function is not total. -/
theorem c10_amended (s : List Nat) (max_len : Nat) :
    (s.length ≤ max_len → truncate_string s max_len = some s) ∧
    (max_len < s.length → isCharBoundary s (max_len - 1) = true →
        truncate_string s max_len = some (s.take (max_len - 1) ++ ellipsisBytes)) ∧
    (max_len < s.length → isCharBoundary s (max_len - 1) = false →
        truncate_string s max_len = none) := by
  refine ⟨?_, ?_, ?_⟩
  · intro h
    rw [truncate_string, if_pos h]
  · intro h1 h2
    simp only [truncate_string, byteSliceTo]
    rw [if_neg (by omega), if_pos h2]
    rfl
  · intro h1 h2
    simp only [truncate_string, byteSliceTo]
    rw [if_neg (by omega), if_neg (by simp [h2])]
    rfl

/-- Witness for the amended C10 on an ASCII buffer: "ABC" truncated to 2
bytes keeps one byte and appends the ellipsis. -/
theorem c10_witness :
    truncate_string [65, 66, 67] 2 = some ([65] ++ ellipsisBytes) :=
  (c10_amended [65, 66, 67] 2).2.1 (by decide) (by decide)

end Captest
